import Mathlib

/-!
# Cost-sensitive classification loss: verification of the specification

The repository is a demonstration notebook (`CS_loss.ipynb`) for a
cost-sensitive classification loss.  The notebook imports the actual loss
implementations (`CostSensitiveLoss`, `CostSensitiveRegularizedLoss`) from
`utils.losses`, a module that is not part of the repository sources; the
notebook records their observed behaviour (the default penalty matrix, loss
values on concrete logits).  The losses are therefore modelled here from the
specification, and the notebook's recorded outputs serve as the ground truth
that the model and the specification are checked against.
-/

namespace CSLoss

/-! ## The default penalty matrix (rational arithmetic) -/

/-- Modelled from the spec: entry `(i, j)` of the unnormalized default penalty
matrix, the absolute distance between the class indices raised to the
exponent `e` (the notebook builds it as `np.abs(x[:, None] - x[None, :]) ** exp`). -/
def distPow (e i j : ℕ) : ℚ :=
  |(i : ℚ) - (j : ℚ)| ^ e

/-- Modelled from the spec: the maximum entry of the `K × K` unnormalized
default penalty matrix (the notebook normalizes with `M /= M.max()`). -/
def distPowMax (K e : ℕ) : ℚ :=
  ((List.range K).map
    (fun i => ((List.range K).map (fun j => distPow e i j)).foldr max 0)).foldr max 0

/-- Modelled from the spec: the default penalty matrix, the distance matrix
divided by its maximum entry. -/
def defaultM (K e i j : ℕ) : ℚ :=
  distPow e i j / distPowMax K e

/-- Modelled from the spec and the notebook: the construction-time default
exponent of `CostSensitiveLoss`.  The notebook's recorded default matrix for
three classes, `[[0, 0.5, 1], [0.5, 0, 0.5], [1, 0.5, 0]]`, is the linear
distance matrix normalized by its maximum, which fixes this default to `1`. -/
def defaultExponent : ℕ := 1

/-- Modelled from the spec: the construction-time default exponent of the
regularized wrapper `CostSensitiveRegularizedLoss` (construction signature
`exponent=2`; the notebook's recorded regularized loss values 19.9993,
12.5003 and 0.0007 pin the wrapper's internal matrix to exponent 2). -/
def regExponent : ℕ := 2

/-- The default penalty matrix recorded in the notebook for
`CostSensitiveLoss(3)` (`cs_criterion.M` output cell). -/
def notebookDefaultM (i j : ℕ) : ℚ :=
  (([[0, 1/2, 1], [1/2, 0, 1/2], [1, 1/2, 0]] : List (List ℚ)).getD i []).getD j 0

/-- The wrapper's default penalty matrix as a real matrix on `Fin K`. -/
noncomputable def defaultMReal (K e : ℕ) : Fin K → Fin K → ℝ :=
  fun i j => ((defaultM K e i j : ℚ) : ℝ)

/-! ## The cost-sensitive loss (real arithmetic) -/

/-- Modelled from the spec: softmax, the normalized exponential turning a
logits vector into a probability distribution over the `K` classes. -/
noncomputable def softmax {K : ℕ} (z : Fin K → ℝ) : Fin K → ℝ :=
  fun i => Real.exp (z i) / ∑ j, Real.exp (z j)

/-- Modelled from the spec: the per-example expected penalty, the inner
product between the predicted probability vector and row `l` (the true label)
of the penalty matrix `M`. -/
noncomputable def examplePenalty {K : ℕ} (M : Fin K → Fin K → ℝ)
    (z : Fin K → ℝ) (l : Fin K) : ℝ :=
  ∑ j, softmax z j * M l j

/-- Modelled from the spec: the forward computation of `CostSensitiveLoss`:
the per-example expected penalty averaged over the batch of `B` examples. -/
noncomputable def CostSensitiveLoss {K B : ℕ} (M : Fin K → Fin K → ℝ)
    (Z : Fin B → Fin K → ℝ) (L : Fin B → Fin K) : ℝ :=
  (∑ b, examplePenalty M (Z b) (L b)) / B

/-- Modelled from the spec: the cross-entropy base loss selected by `'ce'`
(the mean over the batch of the negative log of the predicted probability of
the true class; the spec treats it as an available library loss). -/
noncomputable def crossEntropy {K B : ℕ} (Z : Fin B → Fin K → ℝ)
    (L : Fin B → Fin K) : ℝ :=
  (∑ b, -Real.log (softmax (Z b) (L b))) / B

/-- Modelled from the spec: the forward computation of
`CostSensitiveRegularizedLoss`: the selected base loss plus `lambd` times the
cost-sensitive loss taken with the wrapper's default penalty matrix (exponent
`regExponent`).  The base loss enters as a function because the spec treats
the base losses as already-available library functions. -/
noncomputable def CostSensitiveRegularizedLoss {K B : ℕ}
    (base : (Fin B → Fin K → ℝ) → (Fin B → Fin K) → ℝ) (lambd : ℝ)
    (Z : Fin B → Fin K → ℝ) (L : Fin B → Fin K) : ℝ :=
  base Z L + lambd * CostSensitiveLoss (defaultMReal K regExponent) Z L

/-! ## The base-loss selector -/

/-- The recognized base-loss selectors of `CostSensitiveRegularizedLoss`. -/
inductive BaseLossKind where
  | ce
  | focalLoss
  | labelSmoothing
  | gaussianLabelSmoothing
deriving DecidableEq

/-- Modelled from the spec: recognition of the free-form base-loss selector
string.  The recognized set is `{"ce", "focal_loss", "ls", "gls"}`; any other
selector fails fast with a descriptive error (the original implementation
aborts; the failure is modelled as an `Except.error`). -/
def parseBaseLoss (s : String) : Except String BaseLossKind :=
  if s = "ce" then .ok .ce
  else if s = "focal_loss" then .ok .focalLoss
  else if s = "ls" then .ok .labelSmoothing
  else if s = "gls" then .ok .gaussianLabelSmoothing
  else .error ("not a supported base loss: " ++ s)

/-! ## Concrete inputs recorded in the notebook -/

/-- The notebook's "terrible"/"worst" logits `[10, 0, 0]`. -/
noncomputable def worstLogits : Fin 3 → ℝ := fun i => if i = 0 then 10 else 0

/-- The notebook's "better" logits `[0, 10, 0]`. -/
noncomputable def betterLogits : Fin 3 → ℝ := fun i => if i = 1 then 10 else 0

/-- The notebook's "perfect" logits `[0, 0, 10]`. -/
noncomputable def perfectLogits : Fin 3 → ℝ := fun i => if i = 2 then 10 else 0

/-- A batch holding a single three-class example. -/
noncomputable def batchOf (z : Fin 3 → ℝ) : Fin 1 → Fin 3 → ℝ := fun _ => z

/-- The notebook's label batch `[2]`. -/
def labelTwo : Fin 1 → Fin 3 := fun _ => 2

/-- The penalty matrix `[[0,0,0],[0,0,0],[1,0,0]]` of claim C1. -/
noncomputable def unitPenaltyM : Fin 3 → Fin 3 → ℝ :=
  fun i j => if i = 2 ∧ j = 0 then 1 else 0

/-- The notebook's custom penalty matrix `[[0,0,0],[0,0,0],[10,0,0]]`
normalized by its maximum entry `10`. -/
noncomputable def customPenaltyM : Fin 3 → Fin 3 → ℝ :=
  fun i j => (if i = 2 ∧ j = 0 then 10 else 0) / 10

end CSLoss

namespace CSLoss

/-! ## Helper lemmas -/

lemma foldr_max_nonneg (l : List ℚ) : 0 ≤ l.foldr max 0 := by
  induction l with
  | nil => exact le_refl 0
  | cons a t ih => exact le_trans ih (le_max_right a _)

lemma distPowMax_nonneg (K e : ℕ) : 0 ≤ distPowMax K e :=
  foldr_max_nonneg _

lemma expSum_pos {K : ℕ} (z : Fin K → ℝ) (i : Fin K) :
    0 < ∑ j, Real.exp (z j) :=
  Finset.sum_pos (fun j _ => Real.exp_pos (z j)) ⟨i, Finset.mem_univ i⟩

lemma softmax_pos {K : ℕ} (z : Fin K → ℝ) (i : Fin K) : 0 < softmax z i :=
  div_pos (Real.exp_pos (z i)) (expSum_pos z i)

lemma softmax_sum_eq_one {K : ℕ} (z : Fin K → ℝ) (i : Fin K) :
    ∑ j, softmax z j = 1 := by
  unfold softmax
  rw [← Finset.sum_div]
  exact div_self (ne_of_gt (expSum_pos z i))

lemma softmax_shift {K : ℕ} (z : Fin K → ℝ) (c : ℝ) :
    softmax (fun i => z i + c) = softmax z := by
  funext i
  unfold softmax
  simp only [Real.exp_add]
  rw [← Finset.sum_mul, mul_div_mul_right _ _ (Real.exp_ne_zero c)]

/-! ### Bounds on `exp 10` and on the derived quantities -/

lemma exp_ten_eq : Real.exp 10 = Real.exp 1 ^ 10 := by
  rw [show (10 : ℝ) = ((10 : ℕ) : ℝ) * 1 by norm_num, Real.exp_nat_mul]

lemma exp_ten_gt : (22026465 : ℝ) / 1000 < Real.exp 10 := by
  rw [exp_ten_eq]
  calc (22026465 : ℝ) / 1000 < 2.7182818283 ^ 10 := by norm_num
    _ < Real.exp 1 ^ 10 := by
        gcongr
        exact Real.exp_one_gt_d9

lemma exp_ten_lt : Real.exp 10 < (22026466 : ℝ) / 1000 := by
  rw [exp_ten_eq]
  calc Real.exp 1 ^ 10 < 2.7182818286 ^ 10 := by
        gcongr
        exact Real.exp_one_lt_d9
    _ < (22026466 : ℝ) / 1000 := by norm_num

lemma e2_pos : (0 : ℝ) < Real.exp 10 + 2 := by positivity

lemma inv_e2_lt : 1 / (Real.exp 10 + 2) < 0.0000454 := by
  rw [div_lt_iff₀ e2_pos]
  linarith [exp_ten_gt]

lemma inv_e2_gt : (0.00004539 : ℝ) < 1 / (Real.exp 10 + 2) := by
  rw [lt_div_iff₀ e2_pos]
  linarith [exp_ten_lt]

lemma frac_id : Real.exp 10 / (Real.exp 10 + 2) + 2 * (1 / (Real.exp 10 + 2)) = 1 := by
  field_simp

lemma frac_lt_one : Real.exp 10 / (Real.exp 10 + 2) < 1 := by
  rw [div_lt_one e2_pos]
  linarith

lemma frac_gt : (0.9998 : ℝ) < Real.exp 10 / (Real.exp 10 + 2) := by
  rw [lt_div_iff₀ e2_pos]
  linarith [exp_ten_gt]

lemma logE2_gt : (10 : ℝ) < Real.log (Real.exp 10 + 2) :=
  (Real.lt_log_iff_exp_lt e2_pos).mpr (by linarith [Real.exp_pos 10])

lemma logE2_le : Real.log (Real.exp 10 + 2) ≤ 10 + 2 / Real.exp 10 := by
  have h := Real.log_le_sub_one_of_pos
    (show (0 : ℝ) < (Real.exp 10 + 2) / Real.exp 10 by positivity)
  rw [Real.log_div (ne_of_gt e2_pos) (Real.exp_ne_zero 10), Real.log_exp] at h
  have hE := Real.exp_pos 10
  have hid : (Real.exp 10 + 2) / Real.exp 10 - 1 = 2 / Real.exp 10 := by
    field_simp
  linarith [hid ▸ h]

lemma logE2_lt : Real.log (Real.exp 10 + 2) < 10.0000908 := by
  have h : 2 / Real.exp 10 < 0.0000908 := by
    rw [div_lt_iff₀ (Real.exp_pos 10)]
    linarith [exp_ten_gt]
  linarith [logE2_le]

lemma logE2_ge : 10 + 2 / (Real.exp 10 + 2) ≤ Real.log (Real.exp 10 + 2) := by
  have h := Real.log_le_sub_one_of_pos
    (show (0 : ℝ) < Real.exp 10 / (Real.exp 10 + 2) by positivity)
  rw [Real.log_div (Real.exp_ne_zero 10) (ne_of_gt e2_pos), Real.log_exp] at h
  have hid : Real.exp 10 / (Real.exp 10 + 2) - 1 = -(2 / (Real.exp 10 + 2)) := by
    field_simp
  linarith [hid ▸ h]

/-! ### Evaluation of the model on the notebook's concrete inputs -/

lemma expSum_worst : ∑ j, Real.exp (worstLogits j) = Real.exp 10 + 2 := by
  rw [Fin.sum_univ_three]
  norm_num [worstLogits, Real.exp_zero, show (1 : Fin 3) ≠ 0 from by decide,
    show (2 : Fin 3) ≠ 0 from by decide]
  ring

lemma expSum_better : ∑ j, Real.exp (betterLogits j) = Real.exp 10 + 2 := by
  rw [Fin.sum_univ_three]
  norm_num [betterLogits, Real.exp_zero, show (0 : Fin 3) ≠ 1 from by decide,
    show (2 : Fin 3) ≠ 1 from by decide]
  ring

lemma expSum_perfect : ∑ j, Real.exp (perfectLogits j) = Real.exp 10 + 2 := by
  rw [Fin.sum_univ_three]
  norm_num [perfectLogits, Real.exp_zero, show (0 : Fin 3) ≠ 2 from by decide,
    show (1 : Fin 3) ≠ 2 from by decide]
  ring

lemma softmax_worst (j : Fin 3) :
    softmax worstLogits j = Real.exp (worstLogits j) / (Real.exp 10 + 2) := by
  unfold softmax
  rw [expSum_worst]

lemma softmax_better (j : Fin 3) :
    softmax betterLogits j = Real.exp (betterLogits j) / (Real.exp 10 + 2) := by
  unfold softmax
  rw [expSum_better]

lemma softmax_perfect (j : Fin 3) :
    softmax perfectLogits j = Real.exp (perfectLogits j) / (Real.exp 10 + 2) := by
  unfold softmax
  rw [expSum_perfect]

lemma csLoss_batchOf (M : Fin 3 → Fin 3 → ℝ) (z : Fin 3 → ℝ) :
    CostSensitiveLoss M (batchOf z) labelTwo =
      softmax z 0 * M 2 0 + softmax z 1 * M 2 1 + softmax z 2 * M 2 2 := by
  unfold CostSensitiveLoss examplePenalty batchOf labelTwo
  rw [Fin.sum_univ_one, Fin.sum_univ_three]
  norm_num

lemma crossEntropy_batchOf (z : Fin 3 → ℝ) :
    crossEntropy (batchOf z) labelTwo = -Real.log (softmax z 2) := by
  unfold crossEntropy batchOf labelTwo
  rw [Fin.sum_univ_one]
  norm_num

lemma csLoss_unit_worst :
    CostSensitiveLoss unitPenaltyM (batchOf worstLogits) labelTwo =
      Real.exp 10 / (Real.exp 10 + 2) := by
  rw [csLoss_batchOf, softmax_worst, softmax_worst, softmax_worst]
  norm_num [unitPenaltyM, worstLogits, show (1 : Fin 3) ≠ 0 from by decide,
    show (2 : Fin 3) ≠ 0 from by decide]

lemma csLoss_custom_worst :
    CostSensitiveLoss customPenaltyM (batchOf worstLogits) labelTwo =
      Real.exp 10 / (Real.exp 10 + 2) := by
  rw [csLoss_batchOf, softmax_worst, softmax_worst, softmax_worst]
  norm_num [customPenaltyM, worstLogits, show (1 : Fin 3) ≠ 0 from by decide,
    show (2 : Fin 3) ≠ 0 from by decide]

lemma csLoss_custom_better :
    CostSensitiveLoss customPenaltyM (batchOf betterLogits) labelTwo =
      1 / (Real.exp 10 + 2) := by
  rw [csLoss_batchOf, softmax_better, softmax_better, softmax_better]
  norm_num [customPenaltyM, betterLogits, Real.exp_zero,
    show (0 : Fin 3) ≠ 1 from by decide, show (2 : Fin 3) ≠ 1 from by decide,
    show (1 : Fin 3) ≠ 0 from by decide, show (2 : Fin 3) ≠ 0 from by decide]

lemma csLoss_custom_perfect :
    CostSensitiveLoss customPenaltyM (batchOf perfectLogits) labelTwo =
      1 / (Real.exp 10 + 2) := by
  rw [csLoss_batchOf, softmax_perfect, softmax_perfect, softmax_perfect]
  norm_num [customPenaltyM, perfectLogits, Real.exp_zero,
    show (0 : Fin 3) ≠ 2 from by decide, show (1 : Fin 3) ≠ 2 from by decide,
    show (1 : Fin 3) ≠ 0 from by decide, show (2 : Fin 3) ≠ 0 from by decide]

/-! ### Entries of the regularized wrapper's default matrix -/

lemma regM_two_zero : defaultMReal 3 regExponent 2 0 = 1 := by
  have h : defaultM 3 2 2 0 = 1 := by
    norm_num [defaultM, distPow, distPowMax, List.range_succ]
  norm_num [defaultMReal, regExponent, show ((2 : Fin 3) : ℕ) = 2 from rfl,
    show ((0 : Fin 3) : ℕ) = 0 from rfl, h]

lemma regM_two_one : defaultMReal 3 regExponent 2 1 = 1 / 4 := by
  have h : defaultM 3 2 2 1 = 1 / 4 := by
    norm_num [defaultM, distPow, distPowMax, List.range_succ]
  norm_num [defaultMReal, regExponent, show ((2 : Fin 3) : ℕ) = 2 from rfl,
    show ((1 : Fin 3) : ℕ) = 1 from rfl, h]

lemma regM_two_two : defaultMReal 3 regExponent 2 2 = 0 := by
  have h : defaultM 3 2 2 2 = 0 := by
    norm_num [defaultM, distPow, distPowMax, List.range_succ]
  norm_num [defaultMReal, regExponent, show ((2 : Fin 3) : ℕ) = 2 from rfl, h]

/-! ### Evaluation of the regularized loss on the notebook's inputs -/

lemma csReg_worst :
    CostSensitiveRegularizedLoss crossEntropy 10 (batchOf worstLogits) labelTwo =
      Real.log (Real.exp 10 + 2) +
        10 * (Real.exp 10 / (Real.exp 10 + 2) + (1 / (Real.exp 10 + 2)) / 4) := by
  unfold CostSensitiveRegularizedLoss
  rw [crossEntropy_batchOf, csLoss_batchOf, regM_two_zero, regM_two_one, regM_two_two]
  simp only [softmax_worst]
  norm_num [worstLogits, Real.exp_zero, show (1 : Fin 3) ≠ 0 from by decide,
    show (2 : Fin 3) ≠ 0 from by decide, one_div, Real.log_inv]
  ring

lemma csReg_better :
    CostSensitiveRegularizedLoss crossEntropy 10 (batchOf betterLogits) labelTwo =
      Real.log (Real.exp 10 + 2) +
        10 * (1 / (Real.exp 10 + 2) + (Real.exp 10 / (Real.exp 10 + 2)) / 4) := by
  unfold CostSensitiveRegularizedLoss
  rw [crossEntropy_batchOf, csLoss_batchOf, regM_two_zero, regM_two_one, regM_two_two]
  simp only [softmax_better]
  norm_num [betterLogits, Real.exp_zero, show (0 : Fin 3) ≠ 1 from by decide,
    show (2 : Fin 3) ≠ 1 from by decide, one_div, Real.log_inv]
  ring

lemma csReg_perfect :
    CostSensitiveRegularizedLoss crossEntropy 10 (batchOf perfectLogits) labelTwo =
      (Real.log (Real.exp 10 + 2) - 10) +
        10 * (1 / (Real.exp 10 + 2) + (1 / (Real.exp 10 + 2)) / 4) := by
  unfold CostSensitiveRegularizedLoss
  rw [crossEntropy_batchOf, csLoss_batchOf, regM_two_zero, regM_two_one, regM_two_two]
  simp only [softmax_perfect]
  have hlog : -Real.log (Real.exp 10 / (Real.exp 10 + 2)) =
      Real.log (Real.exp 10 + 2) - 10 := by
    rw [Real.log_div (Real.exp_ne_zero 10) (ne_of_gt e2_pos), Real.log_exp]
    ring
  norm_num [perfectLogits, Real.exp_zero, show (0 : Fin 3) ≠ 2 from by decide,
    show (1 : Fin 3) ≠ 2 from by decide]
  rw [hlog]
  ring

end CSLoss

/-! ## Claims about the default penalty matrix -/

/-- **C3, counterexample.**  The claim says the default matrix of
`CostSensitiveLoss(3)` is `|i - j| ^ e / max` with the construction-time
default `e = 2`; but the notebook records `0.5` at entry `(0, 1)` of the
stored matrix, while the exponent-2 formula gives `0.25` there. -/
theorem spec_c3_counterexample :
    CSLoss.defaultM 3 2 0 1 ≠ CSLoss.notebookDefaultM 0 1 := by
  norm_num [CSLoss.defaultM, CSLoss.distPow, CSLoss.distPowMax, CSLoss.notebookDefaultM,
    List.range_succ]

/-- **C3 (amended).**  When no penalty matrix is provided,
`CostSensitiveLoss(n_classes)` builds the matrix `|i - j| ^ e` divided by its
maximum entry with construction-time default exponent `e = 1` (not `2`): for
`n_classes = 3` every entry of the formula matrix lies in `[0, 1]` and the
formula matrix coincides with the stored matrix recorded in the notebook. -/
theorem spec_c3 (i j : ℕ) (hi : i < 3) (hj : j < 3) :
    CSLoss.defaultM 3 CSLoss.defaultExponent i j = CSLoss.notebookDefaultM i j ∧
    0 ≤ CSLoss.defaultM 3 CSLoss.defaultExponent i j ∧
    CSLoss.defaultM 3 CSLoss.defaultExponent i j ≤ 1 := by
  interval_cases i <;> interval_cases j <;>
    norm_num [CSLoss.defaultM, CSLoss.distPow, CSLoss.distPowMax, CSLoss.defaultExponent,
      CSLoss.notebookDefaultM, List.range_succ]

/-- Witness for C3 at the concrete entry `(0, 1)`. -/
theorem spec_c3_witness :
    (0 < 3 ∧ 1 < 3) ∧
    CSLoss.defaultM 3 CSLoss.defaultExponent 0 1 = CSLoss.notebookDefaultM 0 1 :=
  ⟨⟨by norm_num, by norm_num⟩, (spec_c3 0 1 (by norm_num) (by norm_num)).1⟩

/-- **C7.**  For the default penalty matrix built with any number of classes
`K` and any exponent `e`, the entry `M[i][j]` is monotonically non-decreasing
in the distance `|i - j|`: for indices `i, j, j'` below `K`, if
`|i - j| ≤ |i - j'|` then `M[i][j] ≤ M[i][j']`. -/
theorem spec_c7 (K e i j j' : ℕ) (hi : i < K) (hj : j < K) (hj' : j' < K)
    (hd : |(i : ℚ) - (j : ℚ)| ≤ |(i : ℚ) - (j' : ℚ)|) :
    CSLoss.defaultM K e i j ≤ CSLoss.defaultM K e i j' := by
  unfold CSLoss.defaultM CSLoss.distPow
  rcases eq_or_lt_of_le (CSLoss.distPowMax_nonneg K e) with hm | hm
  · rw [← hm, div_zero, div_zero]
  · exact (div_le_div_iff_of_pos_right hm).mpr (pow_le_pow_left₀ (abs_nonneg _) hd e)

/-- Witness for C7 at `K = 3`, `e = 2`, `i = 0`, `j = 1`, `j' = 2`. -/
theorem spec_c7_witness :
    |(0 : ℚ) - (1 : ℚ)| ≤ |(0 : ℚ) - (2 : ℚ)| ∧
    CSLoss.defaultM 3 2 0 1 ≤ CSLoss.defaultM 3 2 0 2 :=
  ⟨by norm_num, spec_c7 3 2 0 1 2 (by norm_num) (by norm_num) (by norm_num) (by norm_num)⟩

/-- **C10.**  The default penalty matrix produced by
`CostSensitiveLoss(n_classes)` (default exponent) is symmetric and has an
all-zero diagonal. -/
theorem spec_c10 (K i j : ℕ) :
    CSLoss.defaultM K CSLoss.defaultExponent i j =
      CSLoss.defaultM K CSLoss.defaultExponent j i ∧
    CSLoss.defaultM K CSLoss.defaultExponent i i = 0 := by
  constructor
  · unfold CSLoss.defaultM CSLoss.distPow
    rw [abs_sub_comm]
  · unfold CSLoss.defaultM CSLoss.distPow CSLoss.defaultExponent
    simp

/-! ## Claims about the loss computation -/

/-- **C5.**  For an example whose predicted probability vector (the softmax of
its logits) places all probability mass on the true class, and any penalty
matrix with zero diagonal, the cost-sensitive loss of that example is
exactly 0. -/
theorem spec_c5 {K : ℕ} (M : Fin K → Fin K → ℝ) (z : Fin K → ℝ) (l : Fin K)
    (hmass : CSLoss.softmax z l = 1) (hdiag : ∀ i, M i i = 0) :
    CSLoss.examplePenalty M z l = 0 := by
  have hrest : ∑ j ∈ Finset.univ.erase l, CSLoss.softmax z j = 0 := by
    have h := CSLoss.softmax_sum_eq_one z l
    have hsplit := Finset.add_sum_erase Finset.univ (CSLoss.softmax z) (Finset.mem_univ l)
    rw [h, hmass] at hsplit
    linarith
  have hzero : ∀ j ∈ Finset.univ.erase l, CSLoss.softmax z j = 0 :=
    (Finset.sum_eq_zero_iff_of_nonneg
      (fun j _ => (CSLoss.softmax_pos z j).le)).mp hrest
  unfold CSLoss.examplePenalty
  rw [Finset.sum_eq_single l]
  · rw [hmass, hdiag l, mul_zero]
  · intro j _ hj
    rw [hzero j (Finset.mem_erase.mpr ⟨hj, Finset.mem_univ j⟩), zero_mul]
  · intro h
    exact absurd (Finset.mem_univ l) h

/-- Witness for C5: one class, zero logits, the zero penalty matrix. -/
theorem spec_c5_witness :
    CSLoss.softmax (fun _ : Fin 1 => (0 : ℝ)) 0 = 1 ∧
    CSLoss.examplePenalty (fun _ _ => (0 : ℝ)) (fun _ : Fin 1 => (0 : ℝ)) 0 = 0 := by
  have hmass : CSLoss.softmax (fun _ : Fin 1 => (0 : ℝ)) 0 = 1 := by
    unfold CSLoss.softmax
    simp
  exact ⟨hmass, spec_c5 _ _ _ hmass (fun _ => rfl)⟩

/-- **C8.**  Adding a constant `c` to every entry of one example's logits
vector leaves the computed cost-sensitive loss unchanged, for every batch,
every penalty matrix and every real constant (softmax shift invariance). -/
theorem spec_c8 {K B : ℕ} (M : Fin K → Fin K → ℝ) (Z : Fin B → Fin K → ℝ)
    (L : Fin B → Fin K) (b₀ : Fin B) (c : ℝ) :
    CSLoss.CostSensitiveLoss M (Function.update Z b₀ (fun i => Z b₀ i + c)) L =
      CSLoss.CostSensitiveLoss M Z L := by
  unfold CSLoss.CostSensitiveLoss
  congr 1
  refine Finset.sum_congr rfl (fun b _ => ?_)
  by_cases hb : b = b₀
  · subst hb
    rw [Function.update_same]
    unfold CSLoss.examplePenalty
    rw [CSLoss.softmax_shift]
  · rw [Function.update_noteq hb]

/-- **C9.**  Softmax assigns strictly positive probability to every class;
consequently, whenever the true label's row of the (entrywise non-negative)
penalty matrix contains at least one strictly positive entry, the
cost-sensitive loss of that example is strictly positive, never exactly 0. -/
theorem spec_c9 :
    (∀ (K : ℕ) (z : Fin K → ℝ) (i : Fin K), 0 < CSLoss.softmax z i) ∧
    ∀ (K : ℕ) (M : Fin K → Fin K → ℝ) (z : Fin K → ℝ) (l : Fin K),
      (∀ j, 0 ≤ M l j) → (∃ j, 0 < M l j) → 0 < CSLoss.examplePenalty M z l := by
  refine ⟨fun K z i => CSLoss.softmax_pos z i, ?_⟩
  intro K M z l hnonneg ⟨j₀, hj₀⟩
  have hterm : 0 < CSLoss.softmax z j₀ * M l j₀ :=
    mul_pos (CSLoss.softmax_pos z j₀) hj₀
  have hle : CSLoss.softmax z j₀ * M l j₀ ≤ ∑ j, CSLoss.softmax z j * M l j :=
    Finset.single_le_sum
      (fun j _ => mul_nonneg (CSLoss.softmax_pos z j).le (hnonneg j))
      (Finset.mem_univ j₀)
  exact lt_of_lt_of_le hterm hle

/-- Witness for C9: one class, zero logits, the all-ones penalty matrix. -/
theorem spec_c9_witness :
    (0 : ℝ) < 1 ∧
    0 < CSLoss.examplePenalty (fun _ _ : Fin 1 => (1 : ℝ)) (fun _ : Fin 1 => (0 : ℝ)) 0 :=
  ⟨zero_lt_one,
    spec_c9.2 1 (fun _ _ => 1) (fun _ => 0) 0 (fun _ => zero_le_one) ⟨0, zero_lt_one⟩⟩

/-- **C6.**  Constructing `CostSensitiveRegularizedLoss` with a base-loss
selector string outside the recognized set `{"ce", "focal_loss", "ls",
"gls"}` fails fast with a descriptive error instead of silently substituting
a default or deferring the failure. -/
theorem spec_c6 (s : String) (h1 : s ≠ "ce") (h2 : s ≠ "focal_loss")
    (h3 : s ≠ "ls") (h4 : s ≠ "gls") :
    CSLoss.parseBaseLoss s = Except.error ("not a supported base loss: " ++ s) := by
  unfold CSLoss.parseBaseLoss
  rw [if_neg h1, if_neg h2, if_neg h3, if_neg h4]

/-- Witness for C6 at the unrecognized selector `"mse"`. -/
theorem spec_c6_witness :
    ("mse" ≠ "ce") ∧
    CSLoss.parseBaseLoss "mse" = Except.error ("not a supported base loss: " ++ "mse") :=
  ⟨by decide, spec_c6 "mse" (by decide) (by decide) (by decide) (by decide)⟩

/-- **C1.**  The cost-sensitive loss is the average over the batch of the
inner product between `softmax(logits_b)` and row `label_b` of the penalty
matrix; in particular, with `M = [[0,0,0],[0,0,0],[1,0,0]]` and label 2, the
logits `[10,0,0]` yield `softmax([10,0,0])[0] * 1`, which lies strictly
between 0.9999 and 1 (so is approximately 0.9999). -/
theorem spec_c1 :
    (∀ (K B : ℕ) (M : Fin K → Fin K → ℝ) (Z : Fin B → Fin K → ℝ) (L : Fin B → Fin K),
      CSLoss.CostSensitiveLoss M Z L =
        (∑ b, ∑ j, CSLoss.softmax (Z b) j * M (L b) j) / B) ∧
    CSLoss.CostSensitiveLoss CSLoss.unitPenaltyM
        (CSLoss.batchOf CSLoss.worstLogits) CSLoss.labelTwo =
      CSLoss.softmax CSLoss.worstLogits 0 * 1 ∧
    0.9999 < CSLoss.CostSensitiveLoss CSLoss.unitPenaltyM
        (CSLoss.batchOf CSLoss.worstLogits) CSLoss.labelTwo ∧
    CSLoss.CostSensitiveLoss CSLoss.unitPenaltyM
        (CSLoss.batchOf CSLoss.worstLogits) CSLoss.labelTwo < 1 := by
  refine ⟨fun K B M Z L => rfl, ?_, ?_, ?_⟩
  · rw [CSLoss.csLoss_unit_worst, mul_one, CSLoss.softmax_worst]
    norm_num [CSLoss.worstLogits]
  · rw [CSLoss.csLoss_unit_worst, lt_div_iff₀ CSLoss.e2_pos]
    linarith [CSLoss.exp_ten_gt]
  · rw [CSLoss.csLoss_unit_worst, div_lt_one CSLoss.e2_pos]
    linarith

/-- **C4.**  With the penalty matrix `[[0,0,0],[0,0,0],[10,0,0]]` normalized
by its maximum and label 2, the cost-sensitive loss is within `10⁻⁴` of
0.9999 for logits `[10,0,0]`, and within `10⁻⁷` of `4.54e-05` for both
logits `[0,10,0]` and logits `[0,0,10]`. -/
theorem spec_c4 :
    |CSLoss.CostSensitiveLoss CSLoss.customPenaltyM
        (CSLoss.batchOf CSLoss.worstLogits) CSLoss.labelTwo - 0.9999| < 0.0001 ∧
    |CSLoss.CostSensitiveLoss CSLoss.customPenaltyM
        (CSLoss.batchOf CSLoss.betterLogits) CSLoss.labelTwo - 0.0000454| < 0.0000001 ∧
    |CSLoss.CostSensitiveLoss CSLoss.customPenaltyM
        (CSLoss.batchOf CSLoss.perfectLogits) CSLoss.labelTwo - 0.0000454| < 0.0000001 := by
  refine ⟨?_, ?_, ?_⟩
  · rw [CSLoss.csLoss_custom_worst, abs_sub_lt_iff]
    constructor
    · linarith [CSLoss.frac_lt_one]
    · linarith [CSLoss.frac_gt]
  · rw [CSLoss.csLoss_custom_better, abs_sub_lt_iff]
    constructor
    · linarith [CSLoss.inv_e2_lt]
    · linarith [CSLoss.inv_e2_gt]
  · rw [CSLoss.csLoss_custom_perfect, abs_sub_lt_iff]
    constructor
    · linarith [CSLoss.inv_e2_lt]
    · linarith [CSLoss.inv_e2_gt]

/-- **C2.**  `CostSensitiveRegularizedLoss` returns
`base_loss(logits, labels) + lambd * cost_sensitive_loss(logits, labels)`
(the cost-sensitive term taken with the wrapper's default exponent-2 penalty
matrix); the selector `'ce'` is recognized and selects cross-entropy, and
with `lambd = 10`, label 2 and logits `[10,0,0]`, `[0,10,0]`, `[0,0,10]` the
value is within `10⁻⁴` of 19.9993, 12.5003 and 0.0007 respectively. -/
theorem spec_c2 :
    (∀ (K B : ℕ) (base : (Fin B → Fin K → ℝ) → (Fin B → Fin K) → ℝ) (lambd : ℝ)
      (Z : Fin B → Fin K → ℝ) (L : Fin B → Fin K),
      CSLoss.CostSensitiveRegularizedLoss base lambd Z L =
        base Z L + lambd *
          CSLoss.CostSensitiveLoss (CSLoss.defaultMReal K CSLoss.regExponent) Z L) ∧
    CSLoss.parseBaseLoss "ce" = Except.ok CSLoss.BaseLossKind.ce ∧
    |CSLoss.CostSensitiveRegularizedLoss CSLoss.crossEntropy 10
        (CSLoss.batchOf CSLoss.worstLogits) CSLoss.labelTwo - 19.9993| < 0.0001 ∧
    |CSLoss.CostSensitiveRegularizedLoss CSLoss.crossEntropy 10
        (CSLoss.batchOf CSLoss.betterLogits) CSLoss.labelTwo - 12.5003| < 0.0001 ∧
    |CSLoss.CostSensitiveRegularizedLoss CSLoss.crossEntropy 10
        (CSLoss.batchOf CSLoss.perfectLogits) CSLoss.labelTwo - 0.0007| < 0.0001 := by
  refine ⟨fun K B base lambd Z L => rfl, rfl, ?_, ?_, ?_⟩
  · rw [CSLoss.csReg_worst, abs_sub_lt_iff]
    constructor
    · linarith [CSLoss.logE2_lt, CSLoss.frac_id, CSLoss.inv_e2_gt]
    · linarith [CSLoss.logE2_gt, CSLoss.frac_id, CSLoss.inv_e2_lt]
  · rw [CSLoss.csReg_better, abs_sub_lt_iff]
    constructor
    · linarith [CSLoss.logE2_lt, CSLoss.frac_id, CSLoss.inv_e2_lt]
    · linarith [CSLoss.logE2_gt, CSLoss.frac_id, CSLoss.inv_e2_gt]
  · rw [CSLoss.csReg_perfect, abs_sub_lt_iff]
    constructor
    · linarith [CSLoss.logE2_lt, CSLoss.inv_e2_lt]
    · linarith [CSLoss.logE2_ge, CSLoss.inv_e2_gt,
        (by ring : (2 : ℝ) / (Real.exp 10 + 2) = 2 * (1 / (Real.exp 10 + 2)))]
